import Mathlib

/-!
Verification of the Smart Product Assistant frontend (TypeScript/React client)
against a shallow Lean embedding of its source.

Conventions of the embedding:
* JavaScript `undefined`/optional fields become `Option`.
* JavaScript numbers appearing in the claims are integral; they are embedded
  as `Nat` (ids) or `Int` (prices, scores).  Floating point is not modelled.
* JavaScript truthiness on strings is `s ≠ ""`, on numbers `n ≠ 0`, on
  `Option` values `isSome` composed with the truthiness of the payload.
* An async function that performs one HTTP request is embedded as a pure
  function of the request outcome (`Except` for failure/success).
-/

namespace SmartProduct

/-- JavaScript truthiness of a string: the empty string is falsy. -/
def truthyStr (s : String) : Bool := s ≠ ""

/-- JavaScript truthiness of an integral number: zero is falsy. -/
def truthyInt (n : Int) : Bool := n ≠ 0

/-! ## Data model (src/client/src/services/api.ts) -/

/-- Backend product format (interface `BackendProduct`, api.ts lines 5-17). -/
structure BackendProduct where
  id : Nat
  name : String
  description : String
  price : Int
  category : String
  imageUrl : String
  attributes : List (String × String)
  createdAt : String
  updatedAt : String
  ai_explanation : Option String
  ai_relevance_score : Option Int
  deriving DecidableEq, Repr

/-- Frontend product shape (type `Product` used by the components). -/
structure Product where
  id : String
  name : String
  price : Int
  description : String
  image : String
  currency : String
  aiExplanation : Option String
  deriving DecidableEq, Repr

/-- `transformProduct` (api.ts lines 20-28): backend product to frontend format. -/
def transformProduct (backendProduct : BackendProduct) : Product :=
  { id := toString backendProduct.id
    name := backendProduct.name
    price := backendProduct.price
    description := backendProduct.description
    image := backendProduct.imageUrl
    currency := "USD"
    aiExplanation := backendProduct.ai_explanation }

/-- Backend envelope `BackendResponse<T>` (api.ts lines 75-80). -/
structure BackendResponse (T : Type) where
  success : Bool
  count : Option Nat
  data : T
  message : Option String
  deriving Repr

/-- `SearchResponse` (api.ts lines 83-99), reduced to the fields the client reads. -/
structure SearchResponse where
  success : Bool
  query : String
  results : List BackendProduct
  sortBy : String
  total_results : Nat
  deriving Repr

/-! ## Product API result shapes (api.ts lines 167-213)

Each product-returning function performs one HTTP request and maps
`transformProduct` over the payload it extracts from the response.  The
embedding captures the payload-to-result part of each function. -/

/-- `productApi.getAllProducts` result: `response.data.data.map(transformProduct)`. -/
def getAllProductsResult (response : BackendResponse (List BackendProduct)) : List Product :=
  response.data.map transformProduct

/-- `productApi.searchProducts` result: `response.data.data.map(transformProduct)`. -/
def searchProductsResult (response : BackendResponse (List BackendProduct)) : List Product :=
  response.data.map transformProduct

/-- `productApi.aiSearch` result: `response.data.results.map(transformProduct)`. -/
def aiSearchResult (response : SearchResponse) : List Product :=
  response.results.map transformProduct

/-- `productApi.getProductById` result: `transformProduct(response.data.data)`. -/
def getProductByIdResult (response : BackendResponse BackendProduct) : Product :=
  transformProduct response.data

/-- `productApi.getProductsByCategory` result. -/
def getProductsByCategoryResult (response : BackendResponse (List BackendProduct)) : List Product :=
  response.data.map transformProduct

/-- `productApi.getFeaturedProducts` result. -/
def getFeaturedProductsResult (response : BackendResponse (List BackendProduct)) : List Product :=
  response.data.map transformProduct

/-! ## Error classification (apiUtils.getErrorMessage, api.ts lines 252-267) -/

/-- The part of an Axios error response read by `getErrorMessage`:
`error.response.status` and `error.response.data.message` (the latter may be
absent, hence `Option`). -/
structure AxiosResponseInfo where
  status : Nat
  dataMessage : Option String
  deriving DecidableEq, Repr

/-- The part of an Axios error read by `getErrorMessage`: the optional
`response` object and the optional `code` string. -/
structure AxiosErrorShape where
  response : Option AxiosResponseInfo
  code : Option String
  deriving DecidableEq, Repr

/-- An arbitrary thrown value as classified by `axios.isAxiosError`. -/
inductive ErrInput where
  | axios (e : AxiosErrorShape)
  | nonAxios
  deriving DecidableEq, Repr

/-- `apiUtils.getErrorMessage` (api.ts lines 252-267).  The guard on the
backend message is the JavaScript truthiness test
`error.response?.data?.message`. -/
def getErrorMessage : ErrInput → String
  | .axios e =>
    if e.response.map AxiosResponseInfo.status = some 404 then
      "The requested resource was not found."
    else if e.response.map AxiosResponseInfo.status = some 500 then
      "Server error occurred. Please try again later."
    else if e.code = some "ECONNABORTED" then
      "Request timed out. Please check your connection."
    else if e.code = some "ERR_NETWORK" then
      "Network error. Please check your internet connection."
    else
      match e.response.bind AxiosResponseInfo.dataMessage with
      | some m => if truthyStr m then m else "An unexpected error occurred. Please try again."
      | none => "An unexpected error occurred. Please try again."
  | .nonAxios => "An unexpected error occurred. Please try again."

/-- `apiUtils.healthCheck` (api.ts lines 242-249): awaits `GET /health`
inside try/catch and returns a boolean.  The request outcome is the
argument; the result is wrapped in `Except` to record that the function
itself never throws. -/
def healthCheck (requestOutcome : Except ErrInput Unit) : Except ErrInput Bool :=
  match requestOutcome with
  | .ok _ => .ok true
  | .error _ => .ok false

/-! ## Authentication context (src/client/src/context/AuthContext.tsx) -/

/-- User preferences (AuthContext.tsx lines 12-16). -/
structure UserPreferences where
  searchHistoryLimit : Nat
  popularSearchesLimit : Nat
  theme : String
  deriving DecidableEq, Repr

/-- `User` (AuthContext.tsx lines 6-17). -/
structure User where
  id : Nat
  username : String
  email : String
  firstName : Option String
  lastName : Option String
  preferences : UserPreferences
  deriving DecidableEq, Repr

/-- `AuthState` (AuthContext.tsx lines 19-24). -/
structure AuthState where
  user : Option User
  isAuthenticated : Bool
  isLoading : Bool
  error : Option String
  deriving DecidableEq, Repr

/-- `AuthAction` (AuthContext.tsx lines 40-44).  The extra `unknown`
constructor stands for any action object whose `type` is none of the four
named tags; the reducer sends it to its `default` branch. -/
inductive AuthAction where
  | SET_LOADING (payload : Bool)
  | SET_USER (payload : Option User)
  | SET_ERROR (payload : Option String)
  | LOGOUT
  | unknown
  deriving Repr

/-- `initialState` (AuthContext.tsx lines 47-52). -/
def initialState : AuthState :=
  { user := none, isAuthenticated := false, isLoading := true, error := none }

/-- `authReducer` (AuthContext.tsx lines 55-80).  `!!action.payload` on a
`User | null` payload is `Option.isSome`. -/
def authReducer (state : AuthState) (action : AuthAction) : AuthState :=
  match action with
  | .SET_LOADING payload => { state with isLoading := payload }
  | .SET_USER payload =>
      { state with
        user := payload
        isAuthenticated := payload.isSome
        isLoading := false
        error := none }
  | .SET_ERROR payload => { state with error := payload, isLoading := false }
  | .LOGOUT =>
      { state with
        user := none
        isAuthenticated := false
        isLoading := false
        error := none }
  | .unknown => state

/-- The auth state reached from `initialState` by dispatching a sequence of
actions in order. -/
def runAuth (actions : List AuthAction) : AuthState :=
  actions.foldl authReducer initialState

/-! ## SearchBar (src/unnamed/part_002) -/

/-- JavaScript `String.prototype.trim`: remove leading and trailing
whitespace characters. -/
def jsTrim (s : String) : String :=
  ⟨((s.data.dropWhile Char.isWhitespace).reverse.dropWhile Char.isWhitespace).reverse⟩

/-- `SearchBar.handleSubmit` (part_002 lines 36-41): after `preventDefault`,
`if (query.trim()) onSearch(query.trim())`.  The result is the single call
made to `onSearch` during the submit, `none` when no call happens. -/
def handleSubmit (query : String) : Option String :=
  if truthyStr (jsTrim query) then some (jsTrim query) else none

/-- The `disabled` prop of the submit button (part_002 line 173):
`disabled={!query.trim()}`. -/
def submitDisabled (query : String) : Bool :=
  !truthyStr (jsTrim query)

/-! ## LoadingSpinner (src/unnamed/part_007, lines 281-291) -/

/-- `LoadingSpinner.displayMessage`:
`message === undefined ? "Loading..." : (message === "" ? null : message)`.
`none` in the result means no message element is rendered. -/
def displayMessage (message : Option String) : Option String :=
  match message with
  | none => some "Loading..."
  | some m => if m = "" then none else some m

/-! ## getAllProducts query string (api.ts lines 169-181) -/

/-- `SearchFilters` (api.ts lines 150-156), restricted to the fields
`getAllProducts` reads. -/
structure SearchFilters where
  category : Option String
  brand : Option String
  minPrice : Option Int
  maxPrice : Option Int
  deriving DecidableEq, Repr

/-- The `sortBy` union type of `SearchOptions` (api.ts line 161). -/
inductive SortKey where
  | relevance
  | price_asc
  | price_desc
  | name_asc
  | name_desc
  | newest
  | oldest
  deriving DecidableEq, Repr

/-- The string literal a `SortKey` denotes. -/
def SortKey.render : SortKey → String
  | .relevance => "relevance"
  | .price_asc => "price_asc"
  | .price_desc => "price_desc"
  | .name_asc => "name_asc"
  | .name_desc => "name_desc"
  | .newest => "newest"
  | .oldest => "oldest"

/-- `if (filters?.category) params.append('category', filters.category)`
(api.ts line 172).  Optional chaining through the optional `filters` object
followed by string truthiness. -/
def categoryParam (filters : Option SearchFilters) : List (String × String) :=
  match filters.bind SearchFilters.category with
  | some c => if truthyStr c then [("category", c)] else []
  | none => []

/-- `if (filters?.brand) params.append('brand', filters.brand)` (line 173). -/
def brandParam (filters : Option SearchFilters) : List (String × String) :=
  match filters.bind SearchFilters.brand with
  | some b => if truthyStr b then [("brand", b)] else []
  | none => []

/-- `if (filters?.minPrice) params.append('minPrice', filters.minPrice.toString())`
(line 174).  Number truthiness: `0` is falsy. -/
def minPriceParam (filters : Option SearchFilters) : List (String × String) :=
  match filters.bind SearchFilters.minPrice with
  | some n => if truthyInt n then [("minPrice", toString n)] else []
  | none => []

/-- `if (filters?.maxPrice) params.append('maxPrice', filters.maxPrice.toString())`
(line 175). -/
def maxPriceParam (filters : Option SearchFilters) : List (String × String) :=
  match filters.bind SearchFilters.maxPrice with
  | some n => if truthyInt n then [("maxPrice", toString n)] else []
  | none => []

/-- `if (sortBy && sortBy !== 'relevance') params.append('sortBy', sortBy)`
(line 176). -/
def sortByParam (sortBy : Option SortKey) : List (String × String) :=
  match sortBy with
  | some sb => if sb ≠ SortKey.relevance then [("sortBy", sb.render)] else []
  | none => []

/-- The `URLSearchParams` accumulated by `getAllProducts` (api.ts lines
170-176): the five conditional `append` calls in source order. -/
def getAllProductsParams (filters : Option SearchFilters) (sortBy : Option SortKey) :
    List (String × String) :=
  categoryParam filters ++ brandParam filters ++ minPriceParam filters ++
    maxPriceParam filters ++ sortByParam sortBy

/-- `URLSearchParams.toString()`: `key=value` pairs joined by `&` (the
values appearing here need no percent-encoding). -/
def renderParams : List (String × String) → String
  | [] => ""
  | [p] => p.1 ++ "=" ++ p.2
  | p :: q :: rest => p.1 ++ "=" ++ p.2 ++ "&" ++ renderParams (q :: rest)

/-- The request URL of `getAllProducts` (api.ts line 178):
`params.toString() ? '/products?' + params.toString() : '/products'`. -/
def getAllProductsUrl (filters : Option SearchFilters) (sortBy : Option SortKey) : String :=
  let params := getAllProductsParams filters sortBy
  if truthyStr (renderParams params) then "/products?" ++ renderParams params else "/products"

/-! ## App search flow (src/unnamed/part_000, App.handleSearch lines 174-215)

The component state touched by `handleSearch` is gathered in `AppState`.
`handleSearch` awaits one `aiSearch` request; its outcome (the resolved
product list or the thrown error) is passed in as an `Except`.  The
synchronous prefix before the `await` is `startSearch`; everything after the
`await`, including the `catch` and `finally` blocks, is `finishSearch`. -/

/-- The `App` component state read or written by `handleSearch`. -/
structure AppState where
  products : List Product
  searchQuery : String
  error : Option String
  isLoading : Bool
  isFilteringOrSorting : Bool
  filters : SearchFilters
  sortBy : SortKey
  deriving DecidableEq, Repr

/-- The synchronous part of `handleSearch` before the `await`: raise the
loading flag selected by `isFilterOperation`, clear the error, record the
submitted query. -/
def startSearch (s : AppState) (query : String) (isFilterOperation : Bool) : AppState :=
  let s := if isFilterOperation then
    { s with isFilteringOrSorting := true }
  else
    { s with isLoading := true }
  { s with error := none, searchQuery := query }

/-- The part of `handleSearch` that runs when the `aiSearch` promise
settles: on success replace the product list and commit any new
filters/sort; on failure set the error from `getErrorMessage`; in both
cases the `finally` block lowers the flag selected by `isFilterOperation`. -/
def finishSearch (s : AppState) (newFilters : Option SearchFilters)
    (newSortBy : Option SortKey) (isFilterOperation : Bool)
    (outcome : Except ErrInput (List Product)) : AppState :=
  let s :=
    match outcome with
    | .ok recommendedProducts =>
        let s := { s with products := recommendedProducts }
        let s := match newFilters with
          | some nf => { s with filters := nf }
          | none => s
        match newSortBy with
        | some nb => { s with sortBy := nb }
        | none => s
    | .error err => { s with error := some (getErrorMessage err) }
  if isFilterOperation then
    { s with isFilteringOrSorting := false }
  else
    { s with isLoading := false }

/-- A full `handleSearch` invocation whose request settles with `outcome`
before any other state change. -/
def handleSearch (s : AppState) (query : String) (newFilters : Option SearchFilters)
    (newSortBy : Option SortKey) (isFilterOperation : Bool)
    (outcome : Except ErrInput (List Product)) : AppState :=
  finishSearch (startSearch s query isFilterOperation) newFilters newSortBy
    isFilterOperation outcome

/-- One event of the interleaved execution of overlapping `handleSearch`
invocations: either the synchronous start of an invocation or the
settlement of its request. -/
inductive AppEvent where
  | start (query : String) (isFilterOperation : Bool)
  | finish (newFilters : Option SearchFilters) (newSortBy : Option SortKey)
      (isFilterOperation : Bool) (outcome : Except ErrInput (List Product))

/-- Apply one interleaving event to the shared component state. -/
def applyEvent (s : AppState) : AppEvent → AppState
  | .start query isFilterOperation => startSearch s query isFilterOperation
  | .finish newFilters newSortBy isFilterOperation outcome =>
      finishSearch s newFilters newSortBy isFilterOperation outcome

/-- Run an interleaving of `handleSearch` events over the shared state.
There is no cancellation: every issued request eventually contributes its
`finish` event, and React applies the state updates in arrival order. -/
def interleavedRun (s : AppState) (events : List AppEvent) : AppState :=
  events.foldl applyEvent s

/-! ## Concrete test vectors -/

/-- Sample backend product used to instantiate universally quantified
theorems at a concrete input. -/
def bpSample : BackendProduct :=
  { id := 7
    name := "Desk Lamp"
    description := "LED desk lamp"
    price := 29
    category := "home"
    imageUrl := "lamp.png"
    attributes := [("color", "black")]
    createdAt := "2024-01-01"
    updatedAt := "2024-01-02"
    ai_explanation := some "matches your query"
    ai_relevance_score := some 9 }

/-- Same as `bpSample` except in the fields `transformProduct` drops. -/
def bpSampleAlt : BackendProduct :=
  { bpSample with
    category := "office"
    attributes := []
    createdAt := "2020-05-05"
    updatedAt := "2020-06-06"
    ai_relevance_score := none }

/-- Sample frontend product (first). -/
def prodA : Product :=
  { id := "1", name := "Alpha", price := 10, description := "first",
    image := "a.png", currency := "USD", aiExplanation := none }

/-- Sample frontend product (second). -/
def prodB : Product :=
  { id := "2", name := "Beta", price := 20, description := "second",
    image := "b.png", currency := "USD", aiExplanation := none }

/-- An idle `App` component state. -/
def emptyAppState : AppState :=
  { products := []
    searchQuery := ""
    error := none
    isLoading := false
    isFilteringOrSorting := false
    filters := { category := none, brand := none, minPrice := none, maxPrice := none }
    sortBy := .relevance }

/-! # Theorems -/

/-- C2: transformProduct maps each backend field to its frontend
counterpart (id rendered in decimal, image from imageUrl, currency the
constant USD, aiExplanation from the optional ai_explanation); the dropped
backend fields have no influence on the result; and every product-returning
API function returns exactly the element-wise transformProduct image of the
backend payload, in order. -/
theorem transformProduct_spec :
    (∀ bp : BackendProduct,
      (transformProduct bp).id = toString bp.id ∧
      (transformProduct bp).name = bp.name ∧
      (transformProduct bp).price = bp.price ∧
      (transformProduct bp).description = bp.description ∧
      (transformProduct bp).image = bp.imageUrl ∧
      (transformProduct bp).currency = "USD" ∧
      (transformProduct bp).aiExplanation = bp.ai_explanation) ∧
    (∀ bp bq : BackendProduct, bp.id = bq.id → bp.name = bq.name →
      bp.price = bq.price → bp.description = bq.description →
      bp.imageUrl = bq.imageUrl → bp.ai_explanation = bq.ai_explanation →
      transformProduct bp = transformProduct bq) ∧
    (∀ r : BackendResponse (List BackendProduct),
      getAllProductsResult r = r.data.map transformProduct) ∧
    (∀ r : BackendResponse (List BackendProduct),
      searchProductsResult r = r.data.map transformProduct) ∧
    (∀ r : SearchResponse, aiSearchResult r = r.results.map transformProduct) ∧
    (∀ r : BackendResponse BackendProduct, getProductByIdResult r = transformProduct r.data) ∧
    (∀ r : BackendResponse (List BackendProduct),
      getProductsByCategoryResult r = r.data.map transformProduct) ∧
    (∀ r : BackendResponse (List BackendProduct),
      getFeaturedProductsResult r = r.data.map transformProduct) := by
  refine ⟨fun bp => ⟨rfl, rfl, rfl, rfl, rfl, rfl, rfl⟩, ?_,
    fun r => rfl, fun r => rfl, fun r => rfl, fun r => rfl, fun r => rfl, fun r => rfl⟩
  intro bp bq h1 h2 h3 h4 h5 h6
  simp [transformProduct, h1, h2, h3, h4, h5, h6]

/-- Witness for C2: two backend products differing only in the dropped
fields are transformed to the same frontend product. -/
theorem transformProduct_spec_witness :
    transformProduct bpSample = transformProduct bpSampleAlt :=
  transformProduct_spec.2.1 bpSample bpSampleAlt rfl rfl rfl rfl rfl rfl

/-- C3: from the initial auth state, every sequence of dispatched actions
keeps the invariant isAuthenticated = (user is not null); SET_USER sets
isAuthenticated to the non-nullness of its payload, LOGOUT clears the user
and isAuthenticated, and SET_LOADING, SET_ERROR and unknown actions change
neither user nor isAuthenticated. -/
theorem auth_isAuthenticated_invariant :
    (∀ actions : List AuthAction,
      (runAuth actions).isAuthenticated = (runAuth actions).user.isSome) ∧
    (∀ (s : AuthState) (p : Option User),
      (authReducer s (.SET_USER p)).user = p ∧
      (authReducer s (.SET_USER p)).isAuthenticated = p.isSome) ∧
    (∀ s : AuthState,
      (authReducer s .LOGOUT).user = none ∧
      (authReducer s .LOGOUT).isAuthenticated = false) ∧
    (∀ (s : AuthState) (b : Bool),
      (authReducer s (.SET_LOADING b)).user = s.user ∧
      (authReducer s (.SET_LOADING b)).isAuthenticated = s.isAuthenticated) ∧
    (∀ (s : AuthState) (p : Option String),
      (authReducer s (.SET_ERROR p)).user = s.user ∧
      (authReducer s (.SET_ERROR p)).isAuthenticated = s.isAuthenticated) ∧
    (∀ s : AuthState,
      (authReducer s .unknown).user = s.user ∧
      (authReducer s .unknown).isAuthenticated = s.isAuthenticated) := by
  refine ⟨?_, fun s p => ⟨rfl, rfl⟩, fun s => ⟨rfl, rfl⟩, fun s b => ⟨rfl, rfl⟩,
    fun s p => ⟨rfl, rfl⟩, fun s => ⟨rfl, rfl⟩⟩
  intro actions
  suffices h : ∀ (acts : List AuthAction) (s : AuthState),
      s.isAuthenticated = s.user.isSome →
      (acts.foldl authReducer s).isAuthenticated = (acts.foldl authReducer s).user.isSome by
    exact h actions initialState rfl
  intro acts
  induction acts with
  | nil => intro s hs; exact hs
  | cons a rest ih =>
      intro s hs
      refine ih (authReducer s a) ?_
      cases a <;> simp [authReducer, hs]

/-- C8: SET_ERROR changes only the error field (to its payload) and
isLoading (to false), leaving user and isAuthenticated unchanged; LOGOUT
yields the state with user null, isAuthenticated false, isLoading false and
error null regardless of the prior state. -/
theorem authReducer_frame_spec :
    (∀ (s : AuthState) (p : Option String),
      (authReducer s (.SET_ERROR p)).user = s.user ∧
      (authReducer s (.SET_ERROR p)).isAuthenticated = s.isAuthenticated ∧
      (authReducer s (.SET_ERROR p)).error = p ∧
      (authReducer s (.SET_ERROR p)).isLoading = false) ∧
    (∀ s : AuthState,
      authReducer s .LOGOUT =
        { user := none, isAuthenticated := false, isLoading := false, error := none }) :=
  ⟨fun _ _ => ⟨rfl, rfl, rfl, rfl⟩, fun _ => rfl⟩

/-- C9: LoadingSpinner shows the default text when no message argument is
given, no message at all for the empty string, and the argument itself for
any non-empty string. -/
theorem displayMessage_spec :
    displayMessage none = some "Loading..." ∧
    displayMessage (some "") = none ∧
    (∀ m : String, m ≠ "" → displayMessage (some m) = some m) := by
  refine ⟨rfl, rfl, ?_⟩
  intro m hm
  simp [displayMessage, hm]

/-- Witness for C9: a concrete non-empty message is displayed verbatim. -/
theorem displayMessage_spec_witness :
    displayMessage (some "Fetching products") = some "Fetching products" :=
  displayMessage_spec.2.2 "Fetching products" (by decide)

/-- C10: healthCheck never propagates an exception: for every outcome of
the GET /health request it returns a boolean, true exactly when the request
succeeds. -/
theorem healthCheck_total (r : Except ErrInput Unit) :
    ∃ b : Bool, healthCheck r = .ok b ∧ (b = true ↔ r = .ok ()) := by
  cases r with
  | ok u => exact ⟨true, rfl, by simp⟩
  | error e => exact ⟨false, rfl, by simp⟩

/-- C1 counterexample: an Axios error whose response carries a message
field holding the empty string, with status 400 and no code, falls through
to the generic fallback instead of returning the carried (empty) backend
message.  The claim as stated demands the carried message here. -/
theorem getErrorMessage_claim_counterexample :
    (AxiosErrorShape.mk (some (AxiosResponseInfo.mk 400 (some ""))) none).response.bind
        AxiosResponseInfo.dataMessage = some "" ∧
    (AxiosErrorShape.mk (some (AxiosResponseInfo.mk 400 (some ""))) none).response.map
        AxiosResponseInfo.status = some 400 ∧
    (AxiosErrorShape.mk (some (AxiosResponseInfo.mk 400 (some ""))) none).code = none ∧
    getErrorMessage (.axios (AxiosErrorShape.mk (some (AxiosResponseInfo.mk 400 (some ""))) none)) =
      "An unexpected error occurred. Please try again." ∧
    "An unexpected error occurred. Please try again." ≠ "" := by
  refine ⟨rfl, rfl, rfl, rfl, by decide⟩

/-- C1 (amended): getErrorMessage resolves by priority: status 404, then
status 500, then code ECONNABORTED, then code ERR_NETWORK, then a carried
non-empty backend message, and the generic fallback in every remaining case
(non-Axios errors, no usable message, or a carried message that is the
empty string). -/
theorem getErrorMessage_priority :
    (∀ e : AxiosErrorShape,
      e.response.map AxiosResponseInfo.status = some 404 →
      getErrorMessage (.axios e) = "The requested resource was not found.") ∧
    (∀ e : AxiosErrorShape,
      e.response.map AxiosResponseInfo.status ≠ some 404 →
      e.response.map AxiosResponseInfo.status = some 500 →
      getErrorMessage (.axios e) = "Server error occurred. Please try again later.") ∧
    (∀ e : AxiosErrorShape,
      e.response.map AxiosResponseInfo.status ≠ some 404 →
      e.response.map AxiosResponseInfo.status ≠ some 500 →
      e.code = some "ECONNABORTED" →
      getErrorMessage (.axios e) = "Request timed out. Please check your connection.") ∧
    (∀ e : AxiosErrorShape,
      e.response.map AxiosResponseInfo.status ≠ some 404 →
      e.response.map AxiosResponseInfo.status ≠ some 500 →
      e.code ≠ some "ECONNABORTED" →
      e.code = some "ERR_NETWORK" →
      getErrorMessage (.axios e) = "Network error. Please check your internet connection.") ∧
    (∀ (e : AxiosErrorShape) (m : String),
      e.response.map AxiosResponseInfo.status ≠ some 404 →
      e.response.map AxiosResponseInfo.status ≠ some 500 →
      e.code ≠ some "ECONNABORTED" →
      e.code ≠ some "ERR_NETWORK" →
      e.response.bind AxiosResponseInfo.dataMessage = some m →
      m ≠ "" →
      getErrorMessage (.axios e) = m) ∧
    (∀ e : AxiosErrorShape,
      e.response.map AxiosResponseInfo.status ≠ some 404 →
      e.response.map AxiosResponseInfo.status ≠ some 500 →
      e.code ≠ some "ECONNABORTED" →
      e.code ≠ some "ERR_NETWORK" →
      (∀ m : String, e.response.bind AxiosResponseInfo.dataMessage = some m → m = "") →
      getErrorMessage (.axios e) = "An unexpected error occurred. Please try again.") ∧
    getErrorMessage .nonAxios = "An unexpected error occurred. Please try again." := by
  refine ⟨?_, ?_, ?_, ?_, ?_, ?_, rfl⟩
  · intro e h
    simp [getErrorMessage, h]
  · intro e h404 h500
    simp [getErrorMessage, h404, h500]
  · intro e h404 h500 hc
    simp [getErrorMessage, h404, h500, hc]
  · intro e h404 h500 hab hc
    simp [getErrorMessage, h404, h500, hab, hc]
  · intro e m h404 h500 hab hnet hm hne
    simp only [getErrorMessage, if_neg h404, if_neg h500, if_neg hab, if_neg hnet, hm]
    simp [truthyStr, hne]
  · intro e h404 h500 hab hnet hm
    simp only [getErrorMessage, if_neg h404, if_neg h500, if_neg hab, if_neg hnet]
    cases hmsg : e.response.bind AxiosResponseInfo.dataMessage with
    | none => rfl
    | some m =>
        have : m = "" := hm m hmsg
        simp [this, truthyStr]

/-- Witness for C1 (amended): a 404 response, even with a network code and
a backend message present, maps to the not-found string. -/
theorem getErrorMessage_priority_witness :
    getErrorMessage (.axios (AxiosErrorShape.mk
        (some (AxiosResponseInfo.mk 404 (some "item missing"))) (some "ERR_NETWORK"))) =
      "The requested resource was not found." :=
  getErrorMessage_priority.1 _ rfl

/-- C4: the SearchBar submit button is disabled exactly when the trimmed
input is empty; submitting calls onSearch exactly once with the trimmed
string when the trimmed input is non-empty, and never calls onSearch when
the input is empty or whitespace-only. -/
theorem searchBar_submit_spec :
    (∀ q : String, submitDisabled q = true ↔ jsTrim q = "") ∧
    (∀ q : String, jsTrim q ≠ "" → handleSubmit q = some (jsTrim q)) ∧
    (∀ q : String, jsTrim q = "" → handleSubmit q = none) := by
  refine ⟨?_, ?_, ?_⟩
  · intro q
    simp [submitDisabled, truthyStr]
  · intro q hq
    simp [handleSubmit, truthyStr, hq]
  · intro q hq
    simp [handleSubmit, truthyStr, hq]

/-- Witness for C4: a padded query submits its trimmed form; a whitespace
query submits nothing. -/
theorem searchBar_submit_spec_witness :
    handleSubmit "  gaming laptop  " = some "gaming laptop" ∧
    handleSubmit "   " = none :=
  ⟨searchBar_submit_spec.2.1 "  gaming laptop  " (by decide),
   searchBar_submit_spec.2.2 "   " (by decide)⟩

/-- Membership in the category part of the query: the key is `category`
and the value is a present, non-empty category filter. -/
theorem mem_categoryParam_iff (f : Option SearchFilters) (k v : String) :
    (k, v) ∈ categoryParam f ↔
      k = "category" ∧ ∃ ff, f = some ff ∧ ff.category = some v ∧ v ≠ "" := by
  cases f with
  | none => simp [categoryParam]
  | some ff =>
      cases hc : ff.category with
      | none => simp [categoryParam, hc]
      | some c =>
          by_cases hcv : c = "" <;> simp [categoryParam, hc, truthyStr, hcv] <;> aesop

/-- Membership in the brand part of the query. -/
theorem mem_brandParam_iff (f : Option SearchFilters) (k v : String) :
    (k, v) ∈ brandParam f ↔
      k = "brand" ∧ ∃ ff, f = some ff ∧ ff.brand = some v ∧ v ≠ "" := by
  cases f with
  | none => simp [brandParam]
  | some ff =>
      cases hc : ff.brand with
      | none => simp [brandParam, hc]
      | some b =>
          by_cases hbv : b = "" <;> simp [brandParam, hc, truthyStr, hbv] <;> aesop

/-- Membership in the minPrice part of the query: the value is the decimal
rendering of a present, nonzero minPrice filter. -/
theorem mem_minPriceParam_iff (f : Option SearchFilters) (k v : String) :
    (k, v) ∈ minPriceParam f ↔
      k = "minPrice" ∧ ∃ ff n, f = some ff ∧ ff.minPrice = some n ∧ n ≠ 0 ∧ v = toString n := by
  cases f with
  | none => simp [minPriceParam]
  | some ff =>
      cases hc : ff.minPrice with
      | none => simp [minPriceParam, hc]
      | some n =>
          by_cases hn : n = 0 <;> simp [minPriceParam, hc, truthyInt, hn] <;> aesop

/-- Membership in the maxPrice part of the query. -/
theorem mem_maxPriceParam_iff (f : Option SearchFilters) (k v : String) :
    (k, v) ∈ maxPriceParam f ↔
      k = "maxPrice" ∧ ∃ ff n, f = some ff ∧ ff.maxPrice = some n ∧ n ≠ 0 ∧ v = toString n := by
  cases f with
  | none => simp [maxPriceParam]
  | some ff =>
      cases hc : ff.maxPrice with
      | none => simp [maxPriceParam, hc]
      | some n =>
          by_cases hn : n = 0 <;> simp [maxPriceParam, hc, truthyInt, hn] <;> aesop

/-- Membership in the sortBy part of the query: present and different from
relevance. -/
theorem mem_sortByParam_iff (s : Option SortKey) (k v : String) :
    (k, v) ∈ sortByParam s ↔
      k = "sortBy" ∧ ∃ sb, s = some sb ∧ sb ≠ SortKey.relevance ∧ v = sb.render := by
  cases s with
  | none => simp [sortByParam]
  | some sb =>
      by_cases hsb : sb = SortKey.relevance <;> simp [sortByParam, hsb] <;> aesop

/-- Rendering a non-empty parameter list never yields the empty string. -/
theorem renderParams_cons_ne (a : String × String) (l : List (String × String)) :
    renderParams (a :: l) ≠ "" := by
  have hlen : 0 < (renderParams (a :: l)).length := by
    have heq : ("=" : String).length = 1 := rfl
    have hamp : ("&" : String).length = 1 := rfl
    cases l with
    | nil => simp [renderParams, String.length_append, heq]
    | cons b m => simp [renderParams, String.length_append, heq, hamp]
  intro hcontra
  rw [hcontra] at hlen
  simp at hlen

/-- C5 counterexample: a filters object whose minPrice field is present
with value 0 produces no minPrice query parameter at all (number 0 is falsy
in the truthiness guard), and the request goes to the bare products URL. -/
theorem getAllProducts_claim_counterexample :
    (SearchFilters.mk none none (some 0) none).minPrice = some 0 ∧
    getAllProductsParams (some (SearchFilters.mk none none (some 0) none)) none = [] ∧
    getAllProductsUrl (some (SearchFilters.mk none none (some 0) none)) none = "/products" :=
  ⟨rfl, rfl, rfl⟩

/-- C5 (amended): the getAllProducts query string contains a category,
brand, minPrice or maxPrice parameter exactly when the corresponding filter
field is present and truthy (non-empty for the string fields, nonzero for
the price fields, the prices rendered in decimal), contains a sortBy
parameter exactly when sortBy is given and differs from relevance, and the
URL is the bare /products exactly when no parameter is appended. -/
theorem getAllProductsParams_spec :
    (∀ f s v, ("category", v) ∈ getAllProductsParams f s ↔
      ∃ ff, f = some ff ∧ ff.category = some v ∧ v ≠ "") ∧
    (∀ f s v, ("brand", v) ∈ getAllProductsParams f s ↔
      ∃ ff, f = some ff ∧ ff.brand = some v ∧ v ≠ "") ∧
    (∀ f s v, ("minPrice", v) ∈ getAllProductsParams f s ↔
      ∃ ff n, f = some ff ∧ ff.minPrice = some n ∧ n ≠ 0 ∧ v = toString n) ∧
    (∀ f s v, ("maxPrice", v) ∈ getAllProductsParams f s ↔
      ∃ ff n, f = some ff ∧ ff.maxPrice = some n ∧ n ≠ 0 ∧ v = toString n) ∧
    (∀ f s v, ("sortBy", v) ∈ getAllProductsParams f s ↔
      ∃ sb, s = some sb ∧ sb ≠ SortKey.relevance ∧ v = sb.render) ∧
    (∀ f s, getAllProductsParams f s = [] → getAllProductsUrl f s = "/products") ∧
    (∀ f s, getAllProductsParams f s ≠ [] →
      getAllProductsUrl f s = "/products?" ++ renderParams (getAllProductsParams f s)) := by
  refine ⟨?_, ?_, ?_, ?_, ?_, ?_, ?_⟩
  · intro f s v
    simp [getAllProductsParams, List.mem_append, mem_categoryParam_iff, mem_brandParam_iff,
      mem_minPriceParam_iff, mem_maxPriceParam_iff, mem_sortByParam_iff]
  · intro f s v
    simp [getAllProductsParams, List.mem_append, mem_categoryParam_iff, mem_brandParam_iff,
      mem_minPriceParam_iff, mem_maxPriceParam_iff, mem_sortByParam_iff]
  · intro f s v
    simp [getAllProductsParams, List.mem_append, mem_categoryParam_iff, mem_brandParam_iff,
      mem_minPriceParam_iff, mem_maxPriceParam_iff, mem_sortByParam_iff]
  · intro f s v
    simp [getAllProductsParams, List.mem_append, mem_categoryParam_iff, mem_brandParam_iff,
      mem_minPriceParam_iff, mem_maxPriceParam_iff, mem_sortByParam_iff]
  · intro f s v
    simp [getAllProductsParams, List.mem_append, mem_categoryParam_iff, mem_brandParam_iff,
      mem_minPriceParam_iff, mem_maxPriceParam_iff, mem_sortByParam_iff]
  · intro f s h
    simp [getAllProductsUrl, h, renderParams, truthyStr]
  · intro f s h
    rcases hp : getAllProductsParams f s with _ | ⟨a, l⟩
    · exact absurd hp h
    · have hne := renderParams_cons_ne a l
      simp [getAllProductsUrl, hp, truthyStr, hne]

/-- Witness for C5 (amended): a concrete filter and sort produce the full
query string. -/
theorem getAllProductsParams_spec_witness :
    getAllProductsUrl (some (SearchFilters.mk (some "electronics") none (some 100) none))
        (some SortKey.price_asc) =
      "/products?category=electronics&minPrice=100&sortBy=price_asc" := by
  have h := getAllProductsParams_spec.2.2.2.2.2.2
    (some (SearchFilters.mk (some "electronics") none (some 100) none))
    (some SortKey.price_asc) (by decide)
  rw [h]
  rfl

/-- C6: when the aiSearch request of handleSearch fails, the products list
is left exactly as it was, the error state is set to getErrorMessage of the
failure, searchQuery is set to the submitted query, and the loading flag
that was raised is lowered again; on success the products list is replaced
wholesale by the returned list and the error state is null. -/
theorem handleSearch_spec :
    (∀ (s : AppState) (q : String) (nf : Option SearchFilters) (nb : Option SortKey)
        (iop : Bool) (e : ErrInput),
      (handleSearch s q nf nb iop (.error e)).products = s.products ∧
      (handleSearch s q nf nb iop (.error e)).error = some (getErrorMessage e) ∧
      (handleSearch s q nf nb iop (.error e)).searchQuery = q ∧
      (if iop then (handleSearch s q nf nb iop (.error e)).isFilteringOrSorting
        else (handleSearch s q nf nb iop (.error e)).isLoading) = false) ∧
    (∀ (s : AppState) (q : String) (nf : Option SearchFilters) (nb : Option SortKey)
        (iop : Bool) (ps : List Product),
      (handleSearch s q nf nb iop (.ok ps)).products = ps ∧
      (handleSearch s q nf nb iop (.ok ps)).error = none ∧
      (handleSearch s q nf nb iop (.ok ps)).searchQuery = q ∧
      (if iop then (handleSearch s q nf nb iop (.ok ps)).isFilteringOrSorting
        else (handleSearch s q nf nb iop (.ok ps)).isLoading) = false) := by
  constructor <;> intro s q nf nb iop x <;>
    cases iop <;> cases nf <;> cases nb <;>
      simp [handleSearch, startSearch, finishSearch]

/-- C7 counterexample: two overlapping searches, issued as first then
second, whose responses arrive in the opposite order; the products finally
rendered are those of the first-issued request, not the last-issued one. -/
theorem handleSearch_last_request_counterexample :
    (interleavedRun emptyAppState
        [AppEvent.start "first" false,
         AppEvent.start "second" false,
         AppEvent.finish none none false (Except.ok [prodB]),
         AppEvent.finish none none false (Except.ok [prodA])]).products = [prodA] ∧
    [prodA] ≠ ([prodB] : List Product) := by
  refine ⟨rfl, by decide⟩

/-- C7 (amended): in any interleaving of handleSearch invocations, the
products list ultimately rendered is the one delivered by the response
processed last, whatever happened before it (in particular the earlier
request is not cancelled: its update is applied and then overwritten). -/
theorem handleSearch_lastResponseWins (s : AppState) (events : List AppEvent)
    (nf : Option SearchFilters) (nb : Option SortKey) (iop : Bool) (ps : List Product) :
    (interleavedRun s (events ++ [AppEvent.finish nf nb iop (Except.ok ps)])).products = ps := by
  rw [interleavedRun, List.foldl_append]
  cases nf <;> cases nb <;> cases iop <;>
    simp [applyEvent, finishSearch]

end SmartProduct
